import Mathlib

/-!
Shallow embedding of `simple_live_fixes.py` (repository `cripto_ai_bot_v7`).

The module is a startup patch applier: five independent best-effort
adjustment routines (`fix_pandas_warnings`, `fix_asyncio_warnings`,
`fix_binance_client_timeouts`, `fix_signal_calculations`,
`optimize_memory_usage`), a dispatcher `apply_fixes` that runs them in a
fixed order inside one try/except, and a reporter `get_fix_status` that
reruns each routine under its own try/except and returns a dict of five
boolean flags.

The embedding models the process-global state the module reads and writes
(optional-library import outcomes, the platform, the environment-variable
table, the registered warning filters, the event-loop policy, the numpy
error modes and the garbage-collector settings) as an explicit state
`PyEnv`.  Each routine is a function `PyEnv → PyEnv × Option PyExc`: the
second component is the exception the call raises to its caller (`none`
when it returns normally).  Python exceptions do not roll state back, so
the state component is meaningful in both cases.  A `callLog` trace field
records each routine invocation so that the invocation order of
`apply_fixes` can be stated.
-/

namespace SimpleLiveFixes

/-- Outcome of a Python `import` of an optional third-party library:
the import succeeds, raises `ImportError` (library absent), or raises some
other exception (for example a broken installation). -/
inductive ImportOutcome where
  | ok
  | importErr
  | brokenErr
  deriving DecidableEq

/-- A Python exception value, as far as this module distinguishes them:
`ImportError` versus any other `Exception`. -/
inductive PyExc where
  | importError
  | exc (msg : String)
  deriving DecidableEq

/-- The process-global state touched by the module.  `envVars` is the
`os.environ` table as an association list (first match wins, update keeps
the key position, insert appends — Python dict semantics).  `callLog` is
instrumentation only: it records each routine invocation, letting the
invocation order be stated; no routine reads it. -/
structure PyEnv where
  pandasImport : ImportOutcome
  numpyImport : ImportOutcome
  /-- `platform.system() == "Windows"` -/
  isWindows : Bool
  /-- `hasattr(asyncio, "WindowsProactorEventLoopPolicy")` -/
  hasProactorPolicy : Bool
  /-- whether `asyncio.set_event_loop_policy(...)` raises when attempted -/
  setPolicyFails : Bool
  envVars : List (String × String)
  /-- the `warnings.filters` list; `filterwarnings` prepends an entry -/
  warningFilters : List String
  eventLoopPolicy : String
  npDivide : String
  npInvalid : String
  gcCollects : Nat
  gcThresholds : Nat × Nat × Nat
  callLog : List String
  deriving DecidableEq

/-- Python dict / `os.environ` lookup: `d.get(k)` — `none` when absent. -/
def dget {β : Type} : List (String × β) → String → Option β
  | [], _ => none
  | (a, b) :: t, k => if a = k then some b else dget t k

/-- Python dict / `os.environ` store `d[k] = v`: update in place when the
key exists, append otherwise. -/
def dset {β : Type} : List (String × β) → String → β → List (String × β)
  | [], k, v => [(k, v)]
  | (a, b) :: t, k, v => if a = k then (k, v) :: t else (a, b) :: dset t k v

/-- `os.getenv` on the modelled state. -/
def getenv (s : PyEnv) (k : String) : Option String := dget s.envVars k

/-- Python truthiness of an `os.getenv` result: `None` and the empty
string are falsy, any other string is truthy. -/
def truthy : Option String → Bool
  | none => false
  | some v => !(v == "")

/-- Body of `fix_pandas_warnings` (the code inside its `try`): import
`warnings` (stdlib, always present) and `pandas`; on success register the
three warning filters (`filterwarnings` prepends each). -/
def fix_pandas_warnings_body (s : PyEnv) : PyEnv × Option PyExc :=
  match s.pandasImport with
  | ImportOutcome.importErr => (s, some PyExc.importError)
  | ImportOutcome.brokenErr => (s, some (PyExc.exc "pandas import failed"))
  | ImportOutcome.ok =>
      ({ s with warningFilters :=
          "ignore message .*Series.fillna.*" ::
          "ignore message .*DataFrame.fillna.*" ::
          "ignore FutureWarning module pandas" :: s.warningFilters }, none)

/-- `fix_pandas_warnings`: run the body; `except ImportError` and
`except Exception` both log at debug level and swallow the exception. -/
def fix_pandas_warnings (s : PyEnv) : PyEnv × Option PyExc :=
  let r := fix_pandas_warnings_body
    { s with callLog := s.callLog ++ ["fix_pandas_warnings"] }
  match r.2 with
  | none => (r.1, none)
  | some PyExc.importError => (r.1, none)
  | some (PyExc.exc _) => (r.1, none)

/-- Body of `fix_asyncio_warnings`: on Windows, when the proactor policy
attribute exists, set it as the process-wide event-loop policy (the call
itself may raise); otherwise do nothing. -/
def fix_asyncio_warnings_body (s : PyEnv) : PyEnv × Option PyExc :=
  if s.isWindows then
    if s.hasProactorPolicy then
      if s.setPolicyFails then (s, some (PyExc.exc "set_event_loop_policy failed"))
      else ({ s with eventLoopPolicy := "WindowsProactorEventLoopPolicy" }, none)
    else (s, none)
  else (s, none)

/-- `fix_asyncio_warnings`: run the body; `except Exception` logs at debug
level and swallows the exception. -/
def fix_asyncio_warnings (s : PyEnv) : PyEnv × Option PyExc :=
  let r := fix_asyncio_warnings_body
    { s with callLog := s.callLog ++ ["fix_asyncio_warnings"] }
  match r.2 with
  | none => (r.1, none)
  | some _ => (r.1, none)

/-- The pure effect of `fix_binance_client_timeouts` on the environment
table: set each of the two variables only when its current value is falsy
(`os.getenv` returned `None` or the empty string). -/
def binanceEnvUpdate (e : List (String × String)) : List (String × String) :=
  let e1 := if truthy (dget e "BINANCE_API_TIMEOUT") then e
            else dset e "BINANCE_API_TIMEOUT" "30"
  if truthy (dget e1 "BINANCE_MAX_RETRIES") then e1
  else dset e1 "BINANCE_MAX_RETRIES" "3"

/-- Body of `fix_binance_client_timeouts`: the two guarded environment
writes; nothing in the body can raise. -/
def fix_binance_client_timeouts_body (s : PyEnv) : PyEnv × Option PyExc :=
  ({ s with envVars := binanceEnvUpdate s.envVars }, none)

/-- `fix_binance_client_timeouts`: run the body; `except Exception` logs
at debug level and swallows the exception. -/
def fix_binance_client_timeouts (s : PyEnv) : PyEnv × Option PyExc :=
  let r := fix_binance_client_timeouts_body
    { s with callLog := s.callLog ++ ["fix_binance_client_timeouts"] }
  match r.2 with
  | none => (r.1, none)
  | some _ => (r.1, none)

/-- Body of `fix_signal_calculations`: import `numpy`; on success set the
global error modes `divide` and `invalid` to `"ignore"`. -/
def fix_signal_calculations_body (s : PyEnv) : PyEnv × Option PyExc :=
  match s.numpyImport with
  | ImportOutcome.importErr => (s, some PyExc.importError)
  | ImportOutcome.brokenErr => (s, some (PyExc.exc "numpy import failed"))
  | ImportOutcome.ok => ({ s with npDivide := "ignore", npInvalid := "ignore" }, none)

/-- `fix_signal_calculations`: run the body; `except ImportError` and
`except Exception` both log at debug level and swallow the exception. -/
def fix_signal_calculations (s : PyEnv) : PyEnv × Option PyExc :=
  let r := fix_signal_calculations_body
    { s with callLog := s.callLog ++ ["fix_signal_calculations"] }
  match r.2 with
  | none => (r.1, none)
  | some PyExc.importError => (r.1, none)
  | some (PyExc.exc _) => (r.1, none)

/-- Body of `optimize_memory_usage`: import `gc` (stdlib), force one
collection, set the thresholds to `(700, 10, 10)`; nothing here raises. -/
def optimize_memory_usage_body (s : PyEnv) : PyEnv × Option PyExc :=
  ({ s with gcCollects := s.gcCollects + 1, gcThresholds := (700, 10, 10) }, none)

/-- `optimize_memory_usage`: run the body; `except Exception` logs at
debug level and swallows the exception. -/
def optimize_memory_usage (s : PyEnv) : PyEnv × Option PyExc :=
  let r := optimize_memory_usage_body
    { s with callLog := s.callLog ++ ["optimize_memory_usage"] }
  match r.2 with
  | none => (r.1, none)
  | some _ => (r.1, none)

/-- Body of `apply_fixes` (the code inside its `try`): the five routine
calls in source order.  A raise from any call would skip the remaining
calls and propagate, keeping the state mutated so far. -/
def apply_fixes_body (s : PyEnv) : PyEnv × Option PyExc :=
  let r1 := fix_pandas_warnings s
  match r1.2 with
  | some e => (r1.1, some e)
  | none =>
    let r2 := fix_asyncio_warnings r1.1
    match r2.2 with
    | some e => (r2.1, some e)
    | none =>
      let r3 := fix_binance_client_timeouts r2.1
      match r3.2 with
      | some e => (r3.1, some e)
      | none =>
        let r4 := fix_signal_calculations r3.1
        match r4.2 with
        | some e => (r4.1, some e)
        | none =>
          let r5 := optimize_memory_usage r4.1
          match r5.2 with
          | some e => (r5.1, some e)
          | none => (r5.1, none)

/-- `apply_fixes`: run the body; on success log at info level, on any
exception log a warning — either way return normally. -/
def apply_fixes (s : PyEnv) : PyEnv × Option PyExc :=
  let r := apply_fixes_body s
  match r.2 with
  | none => (r.1, none)
  | some _ => (r.1, none)

/-- `get_fix_status`: initialise the five flags to `False`, rerun each
routine under its own `try`/`except Exception: pass`, setting the flag to
`True` when the call returns normally, and return the dict.  No statement
outside the five guarded blocks can raise, so the function raises
nothing. -/
def get_fix_status (s : PyEnv) : (List (String × Bool) × PyEnv) × Option PyExc :=
  let fixes0 : List (String × Bool) :=
    [("pandas_warnings", false), ("asyncio_warnings", false),
     ("binance_timeouts", false), ("signal_calculations", false),
     ("memory_optimization", false)]
  let r1 := fix_pandas_warnings s
  let fixes1 := match r1.2 with
    | none => dset fixes0 "pandas_warnings" true
    | some _ => fixes0
  let r2 := fix_asyncio_warnings r1.1
  let fixes2 := match r2.2 with
    | none => dset fixes1 "asyncio_warnings" true
    | some _ => fixes1
  let r3 := fix_binance_client_timeouts r2.1
  let fixes3 := match r3.2 with
    | none => dset fixes2 "binance_timeouts" true
    | some _ => fixes2
  let r4 := fix_signal_calculations r3.1
  let fixes4 := match r4.2 with
    | none => dset fixes3 "signal_calculations" true
    | some _ => fixes3
  let r5 := optimize_memory_usage r4.1
  let fixes5 := match r5.2 with
    | none => dset fixes4 "memory_optimization" true
    | some _ => fixes4
  ((fixes5, r5.1), none)

/-- A concrete bare environment: both optional libraries absent, platform
not Windows, no environment variables set. -/
def envBare : PyEnv :=
  { pandasImport := ImportOutcome.importErr
    numpyImport := ImportOutcome.importErr
    isWindows := false
    hasProactorPolicy := false
    setPolicyFails := false
    envVars := []
    warningFilters := []
    eventLoopPolicy := "DefaultEventLoopPolicy"
    npDivide := "warn"
    npInvalid := "warn"
    gcCollects := 0
    gcThresholds := (2000, 10, 10)
    callLog := [] }

/-- Bare environment except `BINANCE_MAX_RETRIES` pre-set to `"99"`. -/
def envRetries99 : PyEnv :=
  { envBare with envVars := [("BINANCE_MAX_RETRIES", "99")] }

/-- Bare environment except an unrelated variable `PATH` is set. -/
def envWithPath : PyEnv :=
  { envBare with envVars := [("PATH", "/usr/bin")] }

/-! ### Association-list facts -/

lemma dget_dset_self {β : Type} (l : List (String × β)) (k : String) (v : β) :
    dget (dset l k v) k = some v := by
  induction l with
  | nil => simp [dget, dset]
  | cons p t ih =>
    obtain ⟨a, b⟩ := p
    by_cases h : a = k <;> simp [dget, dset, h, ih]

lemma dget_dset_ne {β : Type} (l : List (String × β)) (k j : String) (v : β)
    (h : j ≠ k) : dget (dset l k v) j = dget l j := by
  induction l with
  | nil => simp [dget, dset, Ne.symm h]
  | cons p t ih =>
    obtain ⟨a, b⟩ := p
    by_cases hak : a = k
    · subst hak
      simp [dget, dset, Ne.symm h]
    · by_cases haj : a = j
      · subst haj
        simp [dget, dset, hak, ih]
      · simp [dget, dset, hak, haj, ih]

/-! ### Per-routine lemmas: no routine raises, each appends exactly its
name to the trace, and each leaves the fields it does not touch alone. -/

lemma fpw_noraise (s : PyEnv) : (fix_pandas_warnings s).2 = none := by
  cases h : s.pandasImport <;>
    simp [fix_pandas_warnings, fix_pandas_warnings_body, h]

lemma fpw_envVars (s : PyEnv) : (fix_pandas_warnings s).1.envVars = s.envVars := by
  cases h : s.pandasImport <;>
    simp [fix_pandas_warnings, fix_pandas_warnings_body, h]

lemma fpw_callLog (s : PyEnv) :
    (fix_pandas_warnings s).1.callLog = s.callLog ++ ["fix_pandas_warnings"] := by
  cases h : s.pandasImport <;>
    simp [fix_pandas_warnings, fix_pandas_warnings_body, h]

lemma fpw_filters_of_absent (s : PyEnv) (h : s.pandasImport = ImportOutcome.importErr) :
    (fix_pandas_warnings s).1.warningFilters = s.warningFilters := by
  simp [fix_pandas_warnings, fix_pandas_warnings_body, h]

lemma faw_noraise (s : PyEnv) : (fix_asyncio_warnings s).2 = none := by
  simp only [fix_asyncio_warnings, fix_asyncio_warnings_body]
  split_ifs <;> simp

lemma faw_envVars (s : PyEnv) : (fix_asyncio_warnings s).1.envVars = s.envVars := by
  simp only [fix_asyncio_warnings, fix_asyncio_warnings_body]
  split_ifs <;> simp

lemma faw_callLog (s : PyEnv) :
    (fix_asyncio_warnings s).1.callLog = s.callLog ++ ["fix_asyncio_warnings"] := by
  simp only [fix_asyncio_warnings, fix_asyncio_warnings_body]
  split_ifs <;> simp

lemma faw_policy_nonwindows (s : PyEnv) (h : s.isWindows = false) :
    (fix_asyncio_warnings s).1.eventLoopPolicy = s.eventLoopPolicy := by
  simp [fix_asyncio_warnings, fix_asyncio_warnings_body, h]

lemma fbt_noraise (s : PyEnv) : (fix_binance_client_timeouts s).2 = none := by
  simp [fix_binance_client_timeouts, fix_binance_client_timeouts_body]

lemma fbt_envVars (s : PyEnv) :
    (fix_binance_client_timeouts s).1.envVars = binanceEnvUpdate s.envVars := by
  simp [fix_binance_client_timeouts, fix_binance_client_timeouts_body]

lemma fbt_callLog (s : PyEnv) :
    (fix_binance_client_timeouts s).1.callLog
      = s.callLog ++ ["fix_binance_client_timeouts"] := by
  simp [fix_binance_client_timeouts, fix_binance_client_timeouts_body]

lemma fsc_noraise (s : PyEnv) : (fix_signal_calculations s).2 = none := by
  cases h : s.numpyImport <;>
    simp [fix_signal_calculations, fix_signal_calculations_body, h]

lemma fsc_envVars (s : PyEnv) : (fix_signal_calculations s).1.envVars = s.envVars := by
  cases h : s.numpyImport <;>
    simp [fix_signal_calculations, fix_signal_calculations_body, h]

lemma fsc_callLog (s : PyEnv) :
    (fix_signal_calculations s).1.callLog = s.callLog ++ ["fix_signal_calculations"] := by
  cases h : s.numpyImport <;>
    simp [fix_signal_calculations, fix_signal_calculations_body, h]

lemma omu_noraise (s : PyEnv) : (optimize_memory_usage s).2 = none := by
  simp [optimize_memory_usage, optimize_memory_usage_body]

lemma omu_envVars (s : PyEnv) : (optimize_memory_usage s).1.envVars = s.envVars := by
  simp [optimize_memory_usage, optimize_memory_usage_body]

lemma omu_callLog (s : PyEnv) :
    (optimize_memory_usage s).1.callLog = s.callLog ++ ["optimize_memory_usage"] := by
  simp [optimize_memory_usage, optimize_memory_usage_body]

/-! ### Facts about the composed entry points -/

lemma afx_body_noraise (s : PyEnv) : (apply_fixes_body s).2 = none := by
  simp [apply_fixes_body, fpw_noraise, faw_noraise, fbt_noraise, fsc_noraise, omu_noraise]

lemma afx_envVars (s : PyEnv) :
    (apply_fixes s).1.envVars = binanceEnvUpdate s.envVars := by
  simp [apply_fixes, apply_fixes_body, fpw_noraise, faw_noraise, fbt_noraise,
    fsc_noraise, omu_noraise, omu_envVars, fsc_envVars, fbt_envVars, faw_envVars,
    fpw_envVars]

lemma gfs_flags (s : PyEnv) :
    (get_fix_status s).1.1 =
      [("pandas_warnings", true), ("asyncio_warnings", true),
       ("binance_timeouts", true), ("signal_calculations", true),
       ("memory_optimization", true)] := by
  simp [get_fix_status, fpw_noraise, faw_noraise, fbt_noraise, fsc_noraise,
    omu_noraise, dset]

/-! ### Facts about `binanceEnvUpdate` -/

lemma truthy_some_ne (v : String) (h : v ≠ "") : truthy (some v) = true := by
  simp [truthy, h]

lemma bu_api_truthy (e : List (String × String)) :
    truthy (dget (binanceEnvUpdate e) "BINANCE_API_TIMEOUT") = true := by
  simp only [binanceEnvUpdate]
  split_ifs with h1 h2 h3 <;>
    simp_all [dget_dset_self, dget_dset_ne, truthy]

lemma bu_retries_truthy (e : List (String × String)) :
    truthy (dget (binanceEnvUpdate e) "BINANCE_MAX_RETRIES") = true := by
  simp only [binanceEnvUpdate]
  split_ifs with h1 h2 h3 <;> simp_all [dget_dset_self, truthy]

lemma bu_idem (e : List (String × String)) :
    binanceEnvUpdate (binanceEnvUpdate e) = binanceEnvUpdate e := by
  have h1 := bu_api_truthy e
  have h2 := bu_retries_truthy e
  generalize hgen : binanceEnvUpdate e = f at h1 h2 ⊢
  simp [binanceEnvUpdate, h1, h2]

lemma bu_other (e : List (String × String)) (k : String)
    (h1 : k ≠ "BINANCE_API_TIMEOUT") (h2 : k ≠ "BINANCE_MAX_RETRIES") :
    dget (binanceEnvUpdate e) k = dget e k := by
  simp only [binanceEnvUpdate]
  split_ifs <;> simp [dget_dset_ne, h1, h2]

lemma bu_api_unset (e : List (String × String))
    (h : truthy (dget e "BINANCE_API_TIMEOUT") = false) :
    dget (binanceEnvUpdate e) "BINANCE_API_TIMEOUT" = some "30" := by
  simp only [binanceEnvUpdate]
  split_ifs with h1 h2 <;> simp_all [dget_dset_self, dget_dset_ne]

lemma bu_retries_unset (e : List (String × String))
    (h : truthy (dget e "BINANCE_MAX_RETRIES") = false) :
    dget (binanceEnvUpdate e) "BINANCE_MAX_RETRIES" = some "3" := by
  simp only [binanceEnvUpdate]
  split_ifs with h1 h2 <;> simp_all [dget_dset_self, dget_dset_ne]

lemma bu_api_kept (e : List (String × String)) (v : String)
    (hv : dget e "BINANCE_API_TIMEOUT" = some v) (hne : v ≠ "") :
    dget (binanceEnvUpdate e) "BINANCE_API_TIMEOUT" = some v := by
  have ht : truthy (dget e "BINANCE_API_TIMEOUT") = true := by
    rw [hv]; exact truthy_some_ne v hne
  simp only [binanceEnvUpdate, ht, if_true]
  split_ifs with hr <;> simp [dget_dset_ne, hv]

lemma bu_retries_kept (e : List (String × String)) (v : String)
    (hv : dget e "BINANCE_MAX_RETRIES" = some v) (hne : v ≠ "") :
    dget (binanceEnvUpdate e) "BINANCE_MAX_RETRIES" = some v := by
  have ht : truthy (dget e "BINANCE_MAX_RETRIES") = true := by
    rw [hv]; exact truthy_some_ne v hne
  simp only [binanceEnvUpdate]
  split_ifs with h1 h2 <;> simp_all [dget_dset_ne, hv]

/-! ### The claims -/

/-- Claim C1: for every environment (optional dependencies present, absent
or broken, any platform, any pre-existing environment variables),
`apply_fixes` raises no exception to its caller: any failure in the
sequence of five adjustment routines is caught and swallowed and the call
returns normally. -/
theorem apply_fixes_never_raises (s : PyEnv) : (apply_fixes s).2 = none := by
  simp [apply_fixes, afx_body_noraise]

/-- Claim C2: for every environment, `get_fix_status` raises nothing and
returns a mapping whose key set is exactly the five fix names, in the
fixed order; every value is a `Bool` by the type of the mapping. -/
theorem get_fix_status_shape (s : PyEnv) :
    ((get_fix_status s).1.1).map Prod.fst =
      ["pandas_warnings", "asyncio_warnings", "binance_timeouts",
       "signal_calculations", "memory_optimization"] ∧
    (get_fix_status s).2 = none := by
  constructor
  · rw [gfs_flags]
    rfl
  · rfl

/-- Claim C3: after `fix_binance_client_timeouts`, `BINANCE_API_TIMEOUT`
is `"30"` and `BINANCE_MAX_RETRIES` is `"3"` when they were unset (or
empty) beforehand; a pre-existing non-empty value is left unchanged. -/
theorem binance_timeout_defaults (s : PyEnv) :
    (truthy (getenv s "BINANCE_API_TIMEOUT") = false →
      getenv (fix_binance_client_timeouts s).1 "BINANCE_API_TIMEOUT" = some "30") ∧
    (truthy (getenv s "BINANCE_MAX_RETRIES") = false →
      getenv (fix_binance_client_timeouts s).1 "BINANCE_MAX_RETRIES" = some "3") ∧
    (∀ v, getenv s "BINANCE_API_TIMEOUT" = some v → v ≠ "" →
      getenv (fix_binance_client_timeouts s).1 "BINANCE_API_TIMEOUT" = some v) ∧
    (∀ v, getenv s "BINANCE_MAX_RETRIES" = some v → v ≠ "" →
      getenv (fix_binance_client_timeouts s).1 "BINANCE_MAX_RETRIES" = some v) := by
  refine ⟨fun h => ?_, fun h => ?_, fun v hv hne => ?_, fun v hv hne => ?_⟩ <;>
    simp only [getenv, fbt_envVars]
  · exact bu_api_unset s.envVars h
  · exact bu_retries_unset s.envVars h
  · exact bu_api_kept s.envVars v hv hne
  · exact bu_retries_kept s.envVars v hv hne

/-- Witness for C3: with `BINANCE_API_TIMEOUT` unset and
`BINANCE_MAX_RETRIES` pre-set to `"99"`, the routine sets the former to
`"30"` and keeps the latter at `"99"`. -/
theorem binance_timeout_defaults_witness :
    getenv (fix_binance_client_timeouts envRetries99).1 "BINANCE_API_TIMEOUT"
      = some "30" ∧
    getenv (fix_binance_client_timeouts envRetries99).1 "BINANCE_MAX_RETRIES"
      = some "99" :=
  ⟨(binance_timeout_defaults envRetries99).1 (by decide),
   (binance_timeout_defaults envRetries99).2.2.2 "99" (by decide) (by decide)⟩

/-- Claim C4: with no relevant environment variables set, both optional
libraries absent and a non-Windows platform, after `apply_fixes` the
status mapping has all five flags true, `BINANCE_API_TIMEOUT` is `"30"`
and `BINANCE_MAX_RETRIES` is `"3"`. -/
theorem scenario_bare_environment (s : PyEnv)
    (hp : s.pandasImport = ImportOutcome.importErr)
    (hn : s.numpyImport = ImportOutcome.importErr)
    (hw : s.isWindows = false)
    (ha : getenv s "BINANCE_API_TIMEOUT" = none)
    (hr : getenv s "BINANCE_MAX_RETRIES" = none) :
    (get_fix_status (apply_fixes s).1).1.1 =
      [("pandas_warnings", true), ("asyncio_warnings", true),
       ("binance_timeouts", true), ("signal_calculations", true),
       ("memory_optimization", true)] ∧
    getenv (apply_fixes s).1 "BINANCE_API_TIMEOUT" = some "30" ∧
    getenv (apply_fixes s).1 "BINANCE_MAX_RETRIES" = some "3" := by
  simp only [getenv] at ha hr
  have ha2 : truthy (dget s.envVars "BINANCE_API_TIMEOUT") = false := by
    rw [ha]
    rfl
  have hr2 : truthy (dget s.envVars "BINANCE_MAX_RETRIES") = false := by
    rw [hr]
    rfl
  refine ⟨gfs_flags _, ?_, ?_⟩
  · simp only [getenv, afx_envVars]
    exact bu_api_unset s.envVars ha2
  · simp only [getenv, afx_envVars]
    exact bu_retries_unset s.envVars hr2

/-- Witness for C4: the bare environment satisfies every hypothesis and
the conclusion holds there. -/
theorem scenario_bare_environment_witness :
    envBare.isWindows = false ∧
    ((get_fix_status (apply_fixes envBare).1).1.1 =
      [("pandas_warnings", true), ("asyncio_warnings", true),
       ("binance_timeouts", true), ("signal_calculations", true),
       ("memory_optimization", true)] ∧
    getenv (apply_fixes envBare).1 "BINANCE_API_TIMEOUT" = some "30" ∧
    getenv (apply_fixes envBare).1 "BINANCE_MAX_RETRIES" = some "3") :=
  ⟨by decide,
   scenario_bare_environment envBare (by decide) (by decide) (by decide)
     (by decide) (by decide)⟩

/-- Claim C5: when pandas is absent the warning-suppression routine
completes without raising, registers no warning filter, and the
`pandas_warnings` flag reported by `get_fix_status` is still true. -/
theorem pandas_absent_flag_true (s : PyEnv)
    (h : s.pandasImport = ImportOutcome.importErr) :
    (fix_pandas_warnings s).2 = none ∧
    (fix_pandas_warnings s).1.warningFilters = s.warningFilters ∧
    dget (get_fix_status s).1.1 "pandas_warnings" = some true := by
  refine ⟨fpw_noraise s, fpw_filters_of_absent s h, ?_⟩
  rw [gfs_flags]
  decide

/-- Witness for C5: the bare environment has pandas absent and the
conclusion holds there. -/
theorem pandas_absent_flag_true_witness :
    envBare.pandasImport = ImportOutcome.importErr ∧
    ((fix_pandas_warnings envBare).2 = none ∧
     (fix_pandas_warnings envBare).1.warningFilters = envBare.warningFilters ∧
     dget (get_fix_status envBare).1.1 "pandas_warnings" = some true) :=
  ⟨by decide, pandas_absent_flag_true envBare (by decide)⟩

/-- Claim C6: `fix_binance_client_timeouts` is idempotent — for every
starting environment, running it twice leaves `BINANCE_API_TIMEOUT` and
`BINANCE_MAX_RETRIES` with the same values as running it once. -/
theorem binance_timeouts_idempotent (s : PyEnv) :
    getenv (fix_binance_client_timeouts (fix_binance_client_timeouts s).1).1
        "BINANCE_API_TIMEOUT"
      = getenv (fix_binance_client_timeouts s).1 "BINANCE_API_TIMEOUT" ∧
    getenv (fix_binance_client_timeouts (fix_binance_client_timeouts s).1).1
        "BINANCE_MAX_RETRIES"
      = getenv (fix_binance_client_timeouts s).1 "BINANCE_MAX_RETRIES" := by
  have h : (fix_binance_client_timeouts (fix_binance_client_timeouts s).1).1.envVars
      = (fix_binance_client_timeouts s).1.envVars := by
    rw [fbt_envVars, fbt_envVars, bu_idem]
  constructor <;> simp only [getenv, h]

/-- Claim C7: on every non-Windows platform `fix_asyncio_warnings`
completes without raising and leaves the process-wide event-loop policy
unchanged. -/
theorem asyncio_non_windows_noop (s : PyEnv) (h : s.isWindows = false) :
    (fix_asyncio_warnings s).2 = none ∧
    (fix_asyncio_warnings s).1.eventLoopPolicy = s.eventLoopPolicy :=
  ⟨faw_noraise s, faw_policy_nonwindows s h⟩

/-- Witness for C7: the bare environment is non-Windows and the
conclusion holds there. -/
theorem asyncio_non_windows_noop_witness :
    envBare.isWindows = false ∧
    ((fix_asyncio_warnings envBare).2 = none ∧
     (fix_asyncio_warnings envBare).1.eventLoopPolicy = envBare.eventLoopPolicy) :=
  ⟨by decide, asyncio_non_windows_noop envBare (by decide)⟩

/-- Claim C8: `apply_fixes` invokes the five adjustment routines exactly
once each, in the fixed source order: pandas warnings, asyncio policy,
binance timeouts, signal calculations, memory optimization. -/
theorem apply_fixes_order (s : PyEnv) :
    (apply_fixes s).1.callLog = s.callLog ++
      ["fix_pandas_warnings", "fix_asyncio_warnings",
       "fix_binance_client_timeouts", "fix_signal_calculations",
       "optimize_memory_usage"] := by
  simp [apply_fixes, apply_fixes_body, fpw_noraise, faw_noraise, fbt_noraise,
    fsc_noraise, omu_noraise, omu_callLog, fsc_callLog, fbt_callLog,
    faw_callLog, fpw_callLog]

/-- Claim C9: the per-routine `except` branches in `get_fix_status` are
unreachable — each of the five routines returns without raising in every
environment — so every flag in the returned mapping is true. -/
theorem get_fix_status_all_flags_true (s : PyEnv) :
    (fix_pandas_warnings s).2 = none ∧
    (fix_asyncio_warnings s).2 = none ∧
    (fix_binance_client_timeouts s).2 = none ∧
    (fix_signal_calculations s).2 = none ∧
    (optimize_memory_usage s).2 = none ∧
    (get_fix_status s).1.1 =
      [("pandas_warnings", true), ("asyncio_warnings", true),
       ("binance_timeouts", true), ("signal_calculations", true),
       ("memory_optimization", true)] :=
  ⟨fpw_noraise s, faw_noraise s, fbt_noraise s, fsc_noraise s, omu_noraise s,
   gfs_flags s⟩

/-- Claim C10: `fix_binance_client_timeouts` writes no environment
variable other than `BINANCE_API_TIMEOUT` and `BINANCE_MAX_RETRIES`:
every other variable reads the same after the call as before. -/
theorem binance_timeouts_frame (s : PyEnv) (k : String)
    (h1 : k ≠ "BINANCE_API_TIMEOUT") (h2 : k ≠ "BINANCE_MAX_RETRIES") :
    getenv (fix_binance_client_timeouts s).1 k = getenv s k := by
  simp only [getenv, fbt_envVars]
  exact bu_other s.envVars k h1 h2

/-- Witness for C10: the unrelated variable `PATH` is untouched. -/
theorem binance_timeouts_frame_witness :
    ("PATH" ≠ "BINANCE_API_TIMEOUT" ∧ "PATH" ≠ "BINANCE_MAX_RETRIES") ∧
    getenv (fix_binance_client_timeouts envWithPath).1 "PATH"
      = getenv envWithPath "PATH" :=
  ⟨⟨by decide, by decide⟩,
   binance_timeouts_frame envWithPath "PATH" (by decide) (by decide)⟩

end SimpleLiveFixes
